import Mathlib

/-!
Shallow embedding of the DeXpress backend (`server.js`).

The server keeps three relational tables (`projects`, `runs`, `run_logs`) in
an external store; we model the store as explicit lists together with a
fresh-id counter and a logical clock used for server-assigned timestamps.
Each HTTP handler becomes a pure function from the request data and the
store to a response (and, for writers, an updated store).  The build
simulator `simulateBuild` is modelled with an explicit single-fault
injection oracle (`fault : Option Nat` names the index of the awaited store
operation that throws, if any) and returns, besides the final store, the
ordered trace of store events it performed, which is what the lifecycle
claims are stated over.
-/

namespace Zignasa

/-- A row of the `projects` table.  `owner` is `none` when the column is
null; string columns use `""` where the JS source stores a falsy value. -/
structure Project where
  id : Nat
  name : String
  repo : String
  framework : String
  region : String
  domain : String
  visitors : Nat
  owner : Option String
  created_at : Nat
deriving DecidableEq

/-- A row of the `runs` table. -/
structure Run where
  id : Nat
  project_id : Nat
  status : String
  started_at : Nat
  created_at : Nat
  finished_at : Option Nat
  build_time : Option String
deriving DecidableEq

/-- A row of the `run_logs` table. -/
structure LogEntry where
  id : Nat
  run_id : Nat
  level : String
  message : String
  ts : Nat
deriving DecidableEq

/-- The store backing the server: the three tables, a fresh-id counter for
inserted rows, and a logical clock that advances on every store operation
(and during the simulated per-stage delays). -/
structure Store where
  projects : List Project
  runs : List Run
  run_logs : List LogEntry
  nextId : Nat
  clock : Nat
deriving DecidableEq

/-- `select * from runs where id = rid` with `.single()` semantics: the
first row whose id matches, if any. -/
def getRun (s : Store) (rid : Nat) : Option Run :=
  s.runs.find? (fun r => r.id == rid)

/-- `select owner from projects where id = pid` (`.single()`). -/
def findProjectById (s : Store) (pid : Nat) : Option Project :=
  s.projects.find? (fun p => p.id == pid)

/-- `select * from projects where name = n` with `.limit(1).maybeSingle()`. -/
def findProjectByName (s : Store) (n : String) : Option Project :=
  s.projects.find? (fun p => p.name == n)

/-- All log rows of one run, in insertion order. -/
def logsFor (s : Store) (rid : Nat) : List LogEntry :=
  s.run_logs.filter (fun e => e.run_id == rid)

/-- The row a `run_logs` insert would create in store `s`. -/
def logEntryOf (s : Store) (rid : Nat) (lvl msg : String) : LogEntry :=
  ⟨s.nextId, rid, lvl, msg, s.clock⟩

/-- `insert into run_logs (run_id, level, message)`. -/
def appendLog (rid : Nat) (lvl msg : String) (s : Store) : Store :=
  { s with run_logs := s.run_logs ++ [logEntryOf s rid lvl msg],
           nextId := s.nextId + 1, clock := s.clock + 1 }

/-- `update runs set ... where id = rid`: the update touches every row whose
id matches and is a no-op on a store without such a row, exactly as the
unchecked Supabase update in the source. -/
def updateRun (rid : Nat) (f : Run → Run) (s : Store) : Store :=
  { s with runs := s.runs.map (fun r => if r.id == rid then f r else r),
           clock := s.clock + 1 }

/-- `update projects set ...` (the row filter is folded into `f`). -/
def updateProjects (f : Project → Project) (s : Store) : Store :=
  { s with projects := s.projects.map f, clock := s.clock + 1 }

/-- Modelled from the spec: the `increment_visitors` remote procedure is
defined in the repository's SQL setup script, which is not under `src/`;
per the spec it is a "custom remote-procedure call for best-effort counter
increment", so it bumps the project's visitor counter. -/
def incVisitors (pid : Nat) (s : Store) : Store :=
  updateProjects (fun p => if p.id == pid then { p with visitors := p.visitors + 1 } else p) s

/-- JS `a || b` on the string columns: the empty string is falsy. -/
def orElseStr (a b : String) : String := if a = "" then b else a

/-- `name.replace(/\s+/g, '-')`: each maximal run of whitespace becomes a
single dash.  The boolean records whether the previous character was
whitespace. -/
def collapseWsAux : Bool → List Char → List Char
  | _, [] => []
  | inRun, c :: cs =>
    if c.isWhitespace then
      (if inRun then collapseWsAux true cs else '-' :: collapseWsAux true cs)
    else c :: collapseWsAux false cs

/-- The derived domain of a project: whitespace-collapsed name plus the
fixed suffix. -/
def domainOf (n : String) : String :=
  String.mk (collapseWsAux false n.toList) ++ ".dexpress.app"

/-- Insertion step for descending sort by a numeric key (stable on ties). -/
def insertDescBy {α : Type} (key : α → Nat) (x : α) : List α → List α
  | [] => [x]
  | y :: ys => if key y < key x then x :: y :: ys else y :: insertDescBy key x ys

/-- `order(col, { ascending: false })` on a numeric column. -/
def sortDescBy {α : Type} (key : α → Nat) : List α → List α
  | [] => []
  | x :: xs => insertDescBy key x (sortDescBy key xs)

/-- Insertion step for ascending sort by a numeric key (stable on ties). -/
def insertAscBy {α : Type} (key : α → Nat) (x : α) : List α → List α
  | [] => [x]
  | y :: ys => if key y ≤ key x then y :: insertAscBy key x ys else x :: y :: ys

/-- `order(col, { ascending: true })` on a numeric column. -/
def sortAscBy {α : Type} (key : α → Nat) : List α → List α
  | [] => []
  | x :: xs => insertAscBy key x (sortAscBy key xs)

/-- Response of `GET /api/projects`. -/
inductive ProjectsResp
  | notAuth
  | ok (projects : List Project)
deriving DecidableEq

/-- Response of `GET /api/runs`. -/
inductive RunsResp
  | notAuth
  | ok (runs : List Run)
deriving DecidableEq

/-- Response of `GET /api/runs/:id`.  `forbidden` and `notFound` carry no
row data, matching the `{error: ...}` bodies of the source. -/
inductive RunDetailResp
  | notAuth
  | notFound
  | forbidden
  | ok (run : Run) (logs : List LogEntry)
deriving DecidableEq

/-- Response of `POST /api/logs/:runId`. -/
inductive LogsResp
  | badRequest
  | ok (log : LogEntry)
deriving DecidableEq

/-- Response of `POST /api/deploy`. -/
inductive DeployResp
  | notAuth
  | badRequest
  | ok (runId projectId : Nat) (status : String)
deriving DecidableEq

/-- `GET /api/projects`: rows owned by the caller, newest first.  The
`user` argument is the result of the `verifyUser` middleware (an external
identity provider): `none` is an anonymous request. -/
def getProjectsHandler (user : Option String) (s : Store) : ProjectsResp :=
  match user with
  | none => .notAuth
  | some u => .ok (sortDescBy Project.created_at (s.projects.filter (fun p => p.owner == some u)))

/-- `GET /api/runs?project_id=`: all runs, optionally filtered by the
`project_id` query parameter, newest first.  There is no owner filter. -/
def getRunsHandler (user : Option String) (projectId : Option Nat) (s : Store) : RunsResp :=
  match user with
  | none => .notAuth
  | some _ =>
    let rows := match projectId with
      | some pid => s.runs.filter (fun r => r.project_id == pid)
      | none => s.runs
    .ok (sortDescBy Run.created_at rows)

/-- `GET /api/runs/:id`: 404 when the run is unknown, 403 unless the run's
project exists and its owner is the caller, otherwise the run plus its logs
ordered by timestamp. -/
def getRunByIdHandler (user : Option String) (rid : Nat) (s : Store) : RunDetailResp :=
  match user with
  | none => .notAuth
  | some u =>
    match getRun s rid with
    | none => .notFound
    | some run =>
      if (findProjectById s run.project_id).bind Project.owner == some u then
        .ok run (sortAscBy LogEntry.ts (logsFor s rid))
      else .forbidden

/-- Body of `POST /api/logs/:runId`; `none` fields model absent JSON keys,
destructured in the source with defaults `level = 'info'`, `message = ''`. -/
structure LogsBody where
  level : Option String
  message : Option String
deriving DecidableEq

/-- `POST /api/logs/:runId`: rejects a missing (hence empty-string)
message, otherwise inserts the log row — without checking that the run
exists. -/
def postLogsHandler (rid : Nat) (b : LogsBody) (s : Store) : LogsResp × Store :=
  let message := b.message.getD ""
  if message = "" then (.badRequest, s)
  else (.ok (logEntryOf s rid (b.level.getD "info") message),
        appendLog rid (b.level.getD "info") message s)

/-- A deploy payload; absent JSON string fields are `""` (both are falsy in
the source's `payload.repo || ...` reads). -/
structure DeployPayload where
  name : String
  repo : String
  framework : String
  region : String
deriving DecidableEq

/-- Body of `POST /api/deploy`: the source reads
`req.body.payload || req.body`, so the payload may come nested under a
`payload` key or be the body itself. -/
structure DeployBody where
  payload : Option DeployPayload
  top : DeployPayload
deriving DecidableEq

/-- `req.body.payload || req.body`. -/
def effPayload (b : DeployBody) : DeployPayload := b.payload.getD b.top

/-- `insert into runs (project_id, status, started_at)` returning the row. -/
def mkRun (pid : Nat) (s : Store) : Run × Store :=
  let r : Run := ⟨s.nextId, pid, "queued", s.clock, s.clock, none, none⟩
  (r, { s with runs := s.runs ++ [r], nextId := s.nextId + 1, clock := s.clock + 1 })

/-- The synchronous part of `POST /api/deploy`: validate, upsert the
project by name (insert, or backfill a missing owner and refresh the
mutable fields), insert a `queued` run, and report which driver is started
(fire-and-forget) as the third component. -/
def deployHandler (user : Option String) (b : DeployBody) (s : Store) :
    DeployResp × Store × Option (Nat × Nat) :=
  match user with
  | none => (.notAuth, s, none)
  | some u =>
    let pl := effPayload b
    if pl.name = "" then (.badRequest, s, none)
    else
      match findProjectByName s pl.name with
      | none =>
        let proj : Project :=
          ⟨s.nextId, pl.name, pl.repo, pl.framework, pl.region, domainOf pl.name, 0, some u, s.clock⟩
        let s1 : Store := { s with projects := s.projects ++ [proj],
                                   nextId := s.nextId + 1, clock := s.clock + 1 }
        let rs := mkRun proj.id s1
        (.ok rs.1.id proj.id "queued", rs.2, some (rs.1.id, proj.id))
      | some p =>
        let s1 := if p.owner = none then
            updateProjects (fun q => if q.id == p.id then { q with owner := some u } else q) s
          else s
        let s2 := updateProjects (fun q => if q.id == p.id then
            { q with repo := orElseStr pl.repo p.repo,
                     framework := orElseStr pl.framework p.framework,
                     region := orElseStr pl.region p.region } else q) s1
        let rs := mkRun p.id s2
        (.ok rs.1.id p.id "queued", rs.2, some (rs.1.id, p.id))

/-- One observable store event of the build driver, in the order the driver
performs them. -/
inductive Ev
  | updRun (runId : Nat) (status : String)
  | insLog (runId : Nat) (level message : String)
  | sleepE (ms : Nat)
  | rpcInc (projectId : Nat) (ok : Bool)
deriving DecidableEq

/-- Driver-side execution state: the store and the event trace so far. -/
structure Sim where
  store : Store
  events : List Ev
deriving DecidableEq

/-- Logical time advance of the store. -/
def advanceClock (ms : Nat) (s : Store) : Store :=
  { s with clock := s.clock + ms }

/-- `await sleep(ms)`: logical time advances; no store row changes. -/
def sleepSim (ms : Nat) : Sim → Sim
  | ⟨st, evs⟩ => ⟨advanceClock ms st, evs ++ [.sleepE ms]⟩

/-- The `k`-th awaited store operation of the driver: it throws (leaving
the store untouched) exactly when the fault oracle names its index, else it
applies its effect and records the event. -/
def tryOp (fault : Option Nat) (k : Nat) (ev : Ev) (f : Store → Store) : Sim → Except Sim Sim
  | ⟨st, evs⟩ =>
    if fault = some k then .error ⟨st, evs⟩
    else .ok ⟨f st, evs ++ [ev]⟩

/-- Sequencing of the driver's awaited operations: an exception aborts the
rest of the `try` block. -/
def andThen (x : Except Sim Sim) (k : Sim → Except Sim Sim) : Except Sim Sim :=
  match x with
  | .error sim => .error sim
  | .ok sim => k sim

/-- The fixed stage list of the simulator. -/
def steps : List String :=
  ["Cloning repo", "Installing dependencies", "Building assets", "Running tests",
   "Packaging", "Uploading", "Activating services"]

/-- The stage loop: for each stage (pre-paired with its awaited-operation
index `2 + i`), insert its "in progress" log row, then sleep for
`700 + jitter i` milliseconds (`700 + Math.floor(Math.random()*1000)` in
the source, so `jitter i ≤ 999`). -/
def runStages (fault : Option Nat) (jitter : Nat → Nat) (rid : Nat) :
    List (Nat × String) → Sim → Except Sim Sim
  | [], sim => .ok sim
  | (i, name) :: rest, sim =>
    andThen (tryOp fault (2 + i) (.insLog rid "info" (name ++ "..."))
        (appendLog rid "info" (name ++ "...")) sim)
      (fun sim1 => runStages fault jitter rid rest (sleepSim (700 + jitter i) sim1))

/-- The driver's `catch` block: unconditionally mark the run failed with a
finish time and append the error log row.  In the single-fault model these
two writes succeed. -/
def failHandler (rid : Nat) (err : String) : Sim → Sim
  | ⟨st, evs⟩ =>
    ⟨appendLog rid "error" ("Build failed: " ++ err)
      (updateRun rid (fun r => { r with status := "failed", finished_at := some st.clock }) st),
     evs ++ [.updRun rid "failed", .insLog rid "error" ("Build failed: " ++ err)]⟩

/-- The best-effort `rpc('increment_visitors').catch(() => {})`: its own
failure is swallowed and never reaches the driver's `catch`. -/
def rpcStep (fault : Option Nat) (pid : Nat) (sim : Sim) : Sim :=
  match tryOp fault 11 (.rpcInc pid true) (incVisitors pid) sim with
  | .ok sim1 => sim1
  | .error sim1 => { sim1 with events := sim1.events ++ [.rpcInc pid false] }

/-- `Math.floor(10 + Math.random()*40) + 's'`, with `brand` standing for
`Math.floor(Math.random()*40)` (so `brand ≤ 39` on real inputs). -/
def buildTimeStr (brand : Nat) : String := toString (10 + brand) ++ "s"

/-- The driver's final success log message. -/
def successMsg (brand : Nat) : String :=
  "Build finished successfully in " ++ buildTimeStr brand

/-- `simulateBuild(runId, project)`.  `fault` is the single-fault oracle
(`some k` makes the `k`-th awaited store operation throw with message
`err`); `jitter i` is `Math.floor(Math.random()*1000)` of stage `i`;
`brand` is `Math.floor(Math.random()*40)` of the build-time summary.
Returns the final store and the ordered trace of store events. -/
def simulateBuild (fault : Option Nat) (jitter : Nat → Nat) (brand : Nat) (err : String)
    (rid pid : Nat) (st : Store) : Store × List Ev :=
  let sim0 : Sim := ⟨st, []⟩
  let attempt :=
    andThen (tryOp fault 0 (.updRun rid "running")
        (updateRun rid (fun r => { r with status := "running" })) sim0) (fun s1 =>
    andThen (tryOp fault 1 (.insLog rid "info" "Build queued")
        (appendLog rid "info" "Build queued") s1) (fun s2 =>
    andThen (runStages fault jitter rid steps.enum s2) (fun s3 =>
    andThen (tryOp fault 9 (.updRun rid "success")
        (fun store => updateRun rid (fun r =>
          { r with status := "success", finished_at := some store.clock,
                   build_time := some (buildTimeStr brand) }) store) s3) (fun s4 =>
    andThen (tryOp fault 10 (.insLog rid "info" (successMsg brand))
        (appendLog rid "info" (successMsg brand)) s4) (fun s5 =>
    .ok (rpcStep fault pid s5))))))
  match attempt with
  | .ok sim => (sim.store, sim.events)
  | .error sim => ((failHandler rid err sim).store, (failHandler rid err sim).events)

/-- The full deploy flow: the synchronous handler, then — because the
response does not depend on the driver — the fire-and-forget driver's
effects on the store. -/
def deploy (user : Option String) (b : DeployBody) (fault : Option Nat) (jitter : Nat → Nat)
    (brand : Nat) (err : String) (s : Store) : DeployResp × Store :=
  match deployHandler user b s with
  | (resp, s1, none) => (resp, s1)
  | (resp, s1, some rp) => (resp, (simulateBuild fault jitter brand err rp.1 rp.2 s1).1)

/-- The sequence of `runs`-table status writes in an event trace, each with
the run id it targeted, in event order. -/
def statusWrites : List Ev → List (Nat × String)
  | [] => []
  | .updRun r st :: rest => (r, st) :: statusWrites rest
  | .insLog _ _ _ :: rest => statusWrites rest
  | .sleepE _ :: rest => statusWrites rest
  | .rpcInc _ _ :: rest => statusWrites rest

/-- The info-level messages the driver writes on the happy path, in order
("Build queued" then the stage messages). -/
def driverInfoMsgs : List String :=
  "Build queued" :: steps.map (fun m => m ++ "...")

/-! ### Helper lemmas about the store primitives -/

theorem find?_map_pred {α : Type} (g : α → α) (p : α → Bool) (h : ∀ a, p (g a) = p a) :
    ∀ l : List α, (l.map g).find? p = (l.find? p).map g := by
  intro l
  induction l with
  | nil => rfl
  | cons a l ih =>
    rw [List.map_cons, List.find?_cons, List.find?_cons, h a]
    cases p a
    · exact ih
    · rfl

theorem getRun_updateRun (rid rid' : Nat) (f : Run → Run) (s : Store)
    (hf : ∀ r, (f r).id = r.id) :
    getRun (updateRun rid' f s) rid =
      (getRun s rid).map (fun r => if r.id == rid' then f r else r) := by
  unfold getRun updateRun
  exact find?_map_pred _ _ (fun r => by by_cases h : r.id == rid' <;> simp [h, hf r]) s.runs

theorem getRun_updateRun_self (rid : Nat) (f : Run → Run) (s : Store)
    (hf : ∀ r, (f r).id = r.id) :
    getRun (updateRun rid f s) rid = (getRun s rid).map f := by
  rw [getRun_updateRun rid rid f s hf]
  cases hr : getRun s rid with
  | none => rfl
  | some r =>
    have hp := List.find?_some hr
    simp only [beq_iff_eq] at hp
    simp [hp]

theorem isSome_getRun_updateRun (rid rid' : Nat) (f : Run → Run) (s : Store)
    (hf : ∀ r, (f r).id = r.id) :
    (getRun (updateRun rid' f s) rid).isSome = (getRun s rid).isSome := by
  rw [getRun_updateRun rid rid' f s hf]
  cases getRun s rid <;> rfl

@[simp] theorem getRun_appendLog (rid rid' : Nat) (lvl msg : String) (s : Store) :
    getRun (appendLog rid' lvl msg s) rid = getRun s rid := rfl

@[simp] theorem getRun_incVisitors (rid pid : Nat) (s : Store) :
    getRun (incVisitors pid s) rid = getRun s rid := rfl

@[simp] theorem logsFor_updateRun (rid rid' : Nat) (f : Run → Run) (s : Store) :
    logsFor (updateRun rid' f s) rid = logsFor s rid := rfl

@[simp] theorem logsFor_incVisitors (rid pid : Nat) (s : Store) :
    logsFor (incVisitors pid s) rid = logsFor s rid := rfl

@[simp] theorem logsFor_appendLog_self (rid : Nat) (lvl msg : String) (s : Store) :
    logsFor (appendLog rid lvl msg s) rid = logsFor s rid ++ [logEntryOf s rid lvl msg] := by
  simp [logsFor, appendLog, List.filter_append, logEntryOf]

@[simp] theorem logEntryOf_level (s : Store) (rid : Nat) (lvl msg : String) :
    (logEntryOf s rid lvl msg).level = lvl := rfl

@[simp] theorem logEntryOf_message (s : Store) (rid : Nat) (lvl msg : String) :
    (logEntryOf s rid lvl msg).message = msg := rfl

@[simp] theorem logEntryOf_run_id (s : Store) (rid : Nat) (lvl msg : String) :
    (logEntryOf s rid lvl msg).run_id = rid := rfl

@[simp] theorem runs_appendLog (rid : Nat) (lvl msg : String) (s : Store) :
    (appendLog rid lvl msg s).runs = s.runs := rfl

@[simp] theorem runs_incVisitors (pid : Nat) (s : Store) :
    (incVisitors pid s).runs = s.runs := rfl

@[simp] theorem runs_advanceClock (ms : Nat) (s : Store) :
    (advanceClock ms s).runs = s.runs := rfl

@[simp] theorem run_logs_updateRun (rid : Nat) (f : Run → Run) (s : Store) :
    (updateRun rid f s).run_logs = s.run_logs := rfl

@[simp] theorem run_logs_incVisitors (pid : Nat) (s : Store) :
    (incVisitors pid s).run_logs = s.run_logs := rfl

@[simp] theorem run_logs_advanceClock (ms : Nat) (s : Store) :
    (advanceClock ms s).run_logs = s.run_logs := rfl

@[simp] theorem run_logs_appendLog (rid : Nat) (lvl msg : String) (s : Store) :
    (appendLog rid lvl msg s).run_logs = s.run_logs ++ [logEntryOf s rid lvl msg] := rfl

@[simp] theorem getRun_advanceClock (rid ms : Nat) (s : Store) :
    getRun (advanceClock ms s) rid = getRun s rid := rfl

@[simp] theorem logsFor_advanceClock (rid ms : Nat) (s : Store) :
    logsFor (advanceClock ms s) rid = logsFor s rid := rfl

@[simp] theorem clock_appendLog (rid : Nat) (lvl msg : String) (s : Store) :
    (appendLog rid lvl msg s).clock = s.clock + 1 := rfl

@[simp] theorem clock_updateRun (rid : Nat) (f : Run → Run) (s : Store) :
    (updateRun rid f s).clock = s.clock + 1 := rfl

@[simp] theorem clock_incVisitors (pid : Nat) (s : Store) :
    (incVisitors pid s).clock = s.clock + 1 := rfl

@[simp] theorem clock_advanceClock (ms : Nat) (s : Store) :
    (advanceClock ms s).clock = s.clock + ms := rfl

@[simp] theorem andThen_ok (sim : Sim) (k : Sim → Except Sim Sim) :
    andThen (.ok sim) k = k sim := rfl

@[simp] theorem andThen_error (sim : Sim) (k : Sim → Except Sim Sim) :
    andThen (.error sim) k = .error sim := rfl

@[simp] theorem sleepSim_store (ms : Nat) (sim : Sim) :
    (sleepSim ms sim).store = advanceClock ms sim.store := by
  cases sim; rfl

@[simp] theorem sleepSim_events (ms : Nat) (sim : Sim) :
    (sleepSim ms sim).events = sim.events ++ [.sleepE ms] := by
  cases sim; rfl

theorem tryOp_oracle_none (k : Nat) (ev : Ev) (f : Store → Store) (sim : Sim) :
    tryOp none k ev f sim = .ok ⟨f sim.store, sim.events ++ [ev]⟩ := by
  cases sim; rfl

theorem tryOp_oracle_hit (j k : Nat) (ev : Ev) (f : Store → Store) (sim : Sim) (h : j = k) :
    tryOp (some j) k ev f sim = .error ⟨sim.store, sim.events⟩ := by
  cases sim; simp [tryOp, h]

theorem tryOp_oracle_miss (j k : Nat) (ev : Ev) (f : Store → Store) (sim : Sim) (h : ¬j = k) :
    tryOp (some j) k ev f sim = .ok ⟨f sim.store, sim.events ++ [ev]⟩ := by
  cases sim; simp [tryOp, h]

theorem mem_insertDescBy {α : Type} (key : α → Nat) (x a : α) :
    ∀ l : List α, a ∈ insertDescBy key x l ↔ a = x ∨ a ∈ l := by
  intro l
  induction l with
  | nil => simp [insertDescBy]
  | cons y ys ih =>
    by_cases h : key y < key x
    · simp [insertDescBy, h]
    · simp only [insertDescBy, if_neg h, List.mem_cons, ih]
      tauto

theorem mem_sortDescBy {α : Type} (key : α → Nat) (a : α) :
    ∀ l : List α, a ∈ sortDescBy key l ↔ a ∈ l := by
  intro l
  induction l with
  | nil => simp [sortDescBy]
  | cons x xs ih => simp [sortDescBy, mem_insertDescBy, ih]

/-! ### Structural facts about one driver execution

`DriverPres rid s t` says that store `t` arises from store `s` by driver
steps for run `rid`: the set of run ids present is unchanged, and the log
table only grew by rows for run `rid`. -/

def DriverPres (rid : Nat) (s t : Store) : Prop :=
  (∀ x, (getRun t x).isSome = (getRun s x).isSome) ∧
  ∃ L, t.run_logs = s.run_logs ++ L ∧ ∀ e ∈ L, e.run_id = rid

theorem DriverPres.rfl (rid : Nat) (s : Store) : DriverPres rid s s :=
  ⟨fun _ => Eq.refl _, [], by simp, by simp⟩

theorem DriverPres.trans {rid : Nat} {s t u : Store}
    (h1 : DriverPres rid s t) (h2 : DriverPres rid t u) : DriverPres rid s u := by
  obtain ⟨hs1, L1, hL1, hr1⟩ := h1
  obtain ⟨hs2, L2, hL2, hr2⟩ := h2
  refine ⟨fun x => (hs2 x).trans (hs1 x), L1 ++ L2, ?_, ?_⟩
  · rw [hL2, hL1, List.append_assoc]
  · intro e he
    rcases List.mem_append.1 he with h | h
    · exact hr1 e h
    · exact hr2 e h

theorem pres_appendLog (rid : Nat) (lvl msg : String) (s : Store) :
    DriverPres rid s (appendLog rid lvl msg s) :=
  ⟨fun _ => Eq.refl _, [logEntryOf s rid lvl msg], Eq.refl _, by simp [logEntryOf]⟩

theorem pres_updateRun (rid rid' : Nat) (f : Run → Run) (s : Store)
    (hf : ∀ r, (f r).id = r.id) :
    DriverPres rid s (updateRun rid' f s) :=
  ⟨fun x => isSome_getRun_updateRun x rid' f s hf, [], by simp [updateRun], by simp⟩

theorem pres_incVisitors (rid pid : Nat) (s : Store) :
    DriverPres rid s (incVisitors pid s) :=
  ⟨fun _ => Eq.refl _, [], by simp [incVisitors, updateProjects], by simp⟩

theorem pres_advanceClock (rid : Nat) (ms : Nat) (s : Store) :
    DriverPres rid s (advanceClock ms s) :=
  ⟨fun _ => Eq.refl _, [], by simp [advanceClock], by simp⟩

/-- Both results of a driver operation, error or not. -/
def simOf : Except Sim Sim → Sim
  | .ok sim => sim
  | .error sim => sim

theorem tryOp_error_store {fault : Option Nat} {k : Nat} {ev : Ev} {f : Store → Store}
    {sim sim' : Sim} (h : tryOp fault k ev f sim = .error sim') : sim'.store = sim.store := by
  cases sim with
  | mk st evs =>
    by_cases hf : fault = some k
    · simp only [tryOp] at h
      rw [if_pos hf] at h
      cases Except.error.inj h
      rfl
    · simp only [tryOp] at h
      rw [if_neg hf] at h
      exact Except.noConfusion h

theorem tryOp_ok_store {fault : Option Nat} {k : Nat} {ev : Ev} {f : Store → Store}
    {sim sim' : Sim} (h : tryOp fault k ev f sim = .ok sim') : sim'.store = f sim.store := by
  cases sim with
  | mk st evs =>
    by_cases hf : fault = some k
    · simp only [tryOp] at h
      rw [if_pos hf] at h
      exact Except.noConfusion h
    · simp only [tryOp] at h
      rw [if_neg hf] at h
      cases Except.ok.inj h
      rfl

theorem failHandler_pres (rid : Nat) (err : String) (sim : Sim) :
    DriverPres rid sim.store (failHandler rid err sim).store := by
  cases sim with
  | mk st evs =>
    exact DriverPres.trans
      (pres_updateRun rid rid
        (fun r => { r with status := "failed", finished_at := some st.clock })
        st (fun r => Eq.refl _))
      (pres_appendLog rid "error" ("Build failed: " ++ err) _)

theorem rpcStep_pres (rid : Nat) (fault : Option Nat) (pid : Nat) (sim : Sim) :
    DriverPres rid sim.store (rpcStep fault pid sim).store := by
  unfold rpcStep
  cases h : tryOp fault 11 (.rpcInc pid true) (incVisitors pid) sim with
  | ok sim1 =>
    simp only []
    rw [tryOp_ok_store h]
    exact pres_incVisitors rid pid sim.store
  | error sim1 =>
    simp only []
    rw [tryOp_error_store h]
    exact DriverPres.rfl rid sim.store

theorem runStages_pres (fault : Option Nat) (jitter : Nat → Nat) (rid : Nat) :
    ∀ (l : List (Nat × String)) (sim : Sim),
      DriverPres rid sim.store (simOf (runStages fault jitter rid l sim)).store := by
  intro l
  induction l with
  | nil => intro sim; exact DriverPres.rfl rid sim.store
  | cons hd rest ih =>
    intro sim
    rw [runStages]
    cases h : tryOp fault (2 + hd.1) (.insLog rid "info" (hd.2 ++ "..."))
        (appendLog rid "info" (hd.2 ++ "...")) sim with
    | error sim1 =>
      simp only [andThen, h]
      rw [show (simOf (Except.error sim1 : Except Sim Sim)) = sim1 from Eq.refl _,
        tryOp_error_store h]
      exact DriverPres.rfl rid sim.store
    | ok sim1 =>
      simp only [andThen, h]
      refine DriverPres.trans ?_ (ih (sleepSim (700 + jitter hd.1) sim1))
      show DriverPres rid sim.store (sleepSim (700 + jitter hd.1) sim1).store
      rw [sleepSim_store]
      refine DriverPres.trans ?_ (pres_advanceClock rid _ sim1.store)
      rw [tryOp_ok_store h]
      exact pres_appendLog rid "info" (hd.2 ++ "...") sim.store

theorem simulateBuild_pres (fault : Option Nat) (jitter : Nat → Nat) (brand : Nat)
    (err : String) (rid pid : Nat) (st : Store) :
    DriverPres rid st (simulateBuild fault jitter brand err rid pid st).1 := by
  unfold simulateBuild
  cases h1 : tryOp fault 0 (.updRun rid "running")
      (updateRun rid (fun r => { r with status := "running" })) ⟨st, []⟩ with
  | error simE =>
    simp only [andThen, h1]
    have : simE.store = st := tryOp_error_store h1
    rw [← this]
    exact failHandler_pres rid err simE
  | ok s1 =>
    have hs1 : DriverPres rid st s1.store := by
      rw [tryOp_ok_store h1]
      exact pres_updateRun rid rid _ st (fun r => Eq.refl _)
    simp only [andThen, h1]
    cases h2 : tryOp fault 1 (.insLog rid "info" "Build queued")
        (appendLog rid "info" "Build queued") s1 with
    | error simE =>
      simp only [andThen, h2]
      refine DriverPres.trans hs1 ?_
      rw [← tryOp_error_store h2]
      exact failHandler_pres rid err simE
    | ok s2 =>
      have hs2 : DriverPres rid st s2.store := by
        refine DriverPres.trans hs1 ?_
        rw [tryOp_ok_store h2]
        exact pres_appendLog rid "info" "Build queued" s1.store
      simp only [andThen, h2]
      cases h3 : runStages fault jitter rid steps.enum s2 with
      | error simE =>
        simp only [andThen, h3]
        have : DriverPres rid s2.store simE.store := by
          have := runStages_pres fault jitter rid steps.enum s2
          rwa [h3] at this
        exact DriverPres.trans (DriverPres.trans hs2 this) (failHandler_pres rid err simE)
      | ok s3 =>
        have hs3 : DriverPres rid st s3.store := by
          refine DriverPres.trans hs2 ?_
          have := runStages_pres fault jitter rid steps.enum s2
          rwa [h3] at this
        simp only [andThen, h3]
        cases h4 : tryOp fault 9 (.updRun rid "success")
            (fun store => updateRun rid (fun r =>
              { r with status := "success", finished_at := some store.clock,
                       build_time := some (buildTimeStr brand) }) store) s3 with
        | error simE =>
          simp only [andThen, h4]
          refine DriverPres.trans hs3 ?_
          rw [← tryOp_error_store h4]
          exact failHandler_pres rid err simE
        | ok s4 =>
          have hs4 : DriverPres rid st s4.store := by
            refine DriverPres.trans hs3 ?_
            rw [tryOp_ok_store h4]
            exact pres_updateRun rid rid _ s3.store (fun r => Eq.refl _)
          simp only [andThen, h4]
          cases h5 : tryOp fault 10
              (.insLog rid "info" (successMsg brand))
              (appendLog rid "info" (successMsg brand)) s4 with
          | error simE =>
            simp only [andThen, h5]
            refine DriverPres.trans hs4 ?_
            rw [← tryOp_error_store h5]
            exact failHandler_pres rid err simE
          | ok s5 =>
            have hs5 : DriverPres rid st s5.store := by
              refine DriverPres.trans hs4 ?_
              rw [tryOp_ok_store h5]
              exact pres_appendLog rid "info" _ s4.store
            simp only [andThen, h5]
            exact DriverPres.trans hs5 (rpcStep_pres rid fault pid s5)

/-! ### Sample data used by witnesses -/

/-- A small sample store: project 7 (name "alpha", owner "alice") with its
queued run 1, and project 8 (owner "bob") with its queued run 2. -/
def sampleStore : Store :=
  { projects := [⟨7, "alpha", "r0", "f0", "eu", "alpha.dexpress.app", 0, some "alice", 0⟩,
                 ⟨8, "beta", "", "", "", "beta.dexpress.app", 0, some "bob", 1⟩],
    runs := [⟨1, 7, "queued", 2, 2, none, none⟩, ⟨2, 8, "queued", 3, 3, none, none⟩],
    run_logs := [],
    nextId := 10,
    clock := 5 }

/-! ### C1 -/

/-- C1, counterexample.  The claim says that once a run reaches a terminal
state no operation — in particular no step of the Build Driver's
failure-handling path — changes its status again.  But the driver's `catch`
block updates the status to `failed` unconditionally: when the
post-success log insert (awaited operation 10) throws, run 1's recorded
status writes are `running`, `success`, `failed` — the run is moved out of
the terminal `success` state, and the final store shows it `failed`. -/
theorem C1_counterexample :
    statusWrites (simulateBuild (some 10) (fun _ => 0) 3 "boom" 1 7 sampleStore).2 =
      [(1, "running"), (1, "success"), (1, "failed")] ∧
    (getRun (simulateBuild (some 10) (fun _ => 0) 3 "boom" 1 7 sampleStore).1 1).map Run.status =
      some "failed" := by
  constructor <;> rfl

/-- C1, amended: provided the driver suffers no unhandled store failure, or
the failure strikes an operation after the initial status update and before
the run completes (operations 1–9: the initial log insert, a stage log
insert, or the success update itself), or it strikes only the best-effort
visitor rpc (operation 11), the status writes for the run are exactly
`running` then one terminal state — so the run's status follows
`queued → running → (success | failed)` and never changes after a terminal
state.  (The claim as stated fails when the failure hits operation 0 —
giving a direct `queued → failed` — or operation 10, see the
counterexample.) -/
theorem C1_amended (fault : Option Nat) (jitter : Nat → Nat) (brand : Nat) (err : String)
    (rid pid : Nat) (s : Store)
    (h : fault = none ∨ ∃ k, fault = some k ∧ ((1 ≤ k ∧ k ≤ 9) ∨ k = 11)) :
    statusWrites (simulateBuild fault jitter brand err rid pid s).2 =
        [(rid, "running"), (rid, "success")] ∨
    statusWrites (simulateBuild fault jitter brand err rid pid s).2 =
        [(rid, "running"), (rid, "failed")] := by
  rcases h with h | ⟨k, hk, hcase⟩
  · subst h
    refine Or.inl ?_
    conv_lhs =>
      arg 1
      simp only [simulateBuild, runStages, steps, List.enum, List.enumFrom, rpcStep,
        failHandler, andThen_ok, andThen_error,
        tryOp_oracle_none, tryOp_oracle_hit, tryOp_oracle_miss, sleepSim_store, sleepSim_events,
        clock_appendLog, clock_updateRun, clock_advanceClock,
        Nat.reduceAdd, ne_eq, Nat.reduceEqDiff, not_false_eq_true,
        List.nil_append, List.cons_append, List.append_assoc, List.singleton_append]
    rfl
  · rcases hcase with ⟨h1, h9⟩ | h11
    · subst hk
      refine Or.inr ?_
      interval_cases k <;>
      · conv_lhs =>
          arg 1
          simp only [simulateBuild, runStages, steps, List.enum, List.enumFrom, rpcStep,
            failHandler, andThen_ok, andThen_error,
            tryOp_oracle_none, tryOp_oracle_hit, tryOp_oracle_miss, sleepSim_store, sleepSim_events,
            clock_appendLog, clock_updateRun, clock_advanceClock,
            Nat.reduceAdd, ne_eq, Nat.reduceEqDiff, not_false_eq_true,
            List.nil_append, List.cons_append, List.append_assoc, List.singleton_append]
        rfl
    · subst h11; subst hk
      refine Or.inl ?_
      conv_lhs =>
        arg 1
        simp only [simulateBuild, runStages, steps, List.enum, List.enumFrom, rpcStep,
          failHandler, andThen_ok, andThen_error,
          tryOp_oracle_none, tryOp_oracle_hit, tryOp_oracle_miss, sleepSim_store, sleepSim_events,
          clock_appendLog, clock_updateRun, clock_advanceClock,
          Nat.reduceAdd, ne_eq, Nat.reduceEqDiff, not_false_eq_true,
          List.nil_append, List.cons_append, List.append_assoc, List.singleton_append]
      rfl

/-- Witness for `C1_amended` at `fault = some 3`. -/
theorem C1_amended_witness :
    ((some 3 : Option Nat) = none ∨
      ∃ k, (some 3 : Option Nat) = some k ∧ ((1 ≤ k ∧ k ≤ 9) ∨ k = 11)) ∧
    (statusWrites (simulateBuild (some 3) (fun _ => 0) 3 "boom" 1 7 sampleStore).2 =
        [(1, "running"), (1, "success")] ∨
     statusWrites (simulateBuild (some 3) (fun _ => 0) 3 "boom" 1 7 sampleStore).2 =
        [(1, "running"), (1, "failed")]) :=
  ⟨Or.inr ⟨3, Eq.refl _, Or.inl (by decide)⟩,
   C1_amended (some 3) (fun _ => 0) 3 "boom" 1 7 sampleStore
     (Or.inr ⟨3, Eq.refl _, Or.inl (by decide)⟩)⟩

/-! ### C2 -/

/-- C2, counterexample.  The claim says every log insertion performed by
the system references a run that exists at the time of insertion, naming
the POST /api/logs/:runId endpoint among the writers.  But that handler
performs no existence check: on an empty store, posting a message for run
id 42 appends a log row whose run_id references no run in the store. -/
theorem C2_counterexample :
    (postLogsHandler 42 ⟨none, some "hi"⟩ ⟨[], [], [], 0, 0⟩).2.run_logs.map LogEntry.run_id
        = [42] ∧
    getRun (postLogsHandler 42 ⟨none, some "hi"⟩ ⟨[], [], [], 0, 0⟩).2 42 = none := by
  constructor <;> rfl

/-- C2, amended: the Build Driver's log appends do satisfy the claim —
if the run the driver was started for exists and every existing log row
references an existing run, then after any driver execution (any fault
pattern) every log row still references an existing run, because the
driver only appends rows for its own run and never deletes runs.  The
POST /api/logs/:runId endpoint, however, performs no existence check and
can insert a log row for an unknown run id (see the counterexample). -/
theorem C2_amended (fault : Option Nat) (jitter : Nat → Nat) (brand : Nat) (err : String)
    (rid pid : Nat) (s : Store)
    (hrid : (getRun s rid).isSome = true)
    (hinv : ∀ e ∈ s.run_logs, (getRun s e.run_id).isSome = true) :
    ∀ e ∈ (simulateBuild fault jitter brand err rid pid s).1.run_logs,
      (getRun (simulateBuild fault jitter brand err rid pid s).1 e.run_id).isSome = true := by
  obtain ⟨hsame, L, hL, hLr⟩ := simulateBuild_pres fault jitter brand err rid pid s
  intro e he
  rw [hL] at he
  rcases List.mem_append.1 he with h | h
  · rw [hsame]
    exact hinv e h
  · rw [hsame, hLr e h]
    exact hrid

/-- Witness for `C2_amended` on `sampleStore` with run 1. -/
theorem C2_amended_witness :
    ((getRun sampleStore 1).isSome = true ∧
      (∀ e ∈ sampleStore.run_logs, (getRun sampleStore e.run_id).isSome = true)) ∧
    (∀ e ∈ (simulateBuild none (fun _ => 0) 3 "boom" 1 7 sampleStore).1.run_logs,
      (getRun (simulateBuild none (fun _ => 0) 3 "boom" 1 7 sampleStore).1 e.run_id).isSome = true) :=
  ⟨⟨by decide, fun e he => absurd he (List.not_mem_nil e)⟩,
   C2_amended none (fun _ => 0) 3 "boom" 1 7 sampleStore (by decide)
     (fun e he => absurd he (List.not_mem_nil e))⟩

/-! ### C4 and C5 -/

/-- C4: on a fault-free execution the driver first writes the `running`
status update — before any log insert — then the initial "Build queued"
entry, then exactly one in-progress log entry per stage in the fixed
source order (clone → install dependencies → build assets → run tests →
package → upload → activate services), sleeping `700 + jitter i`
milliseconds after each stage's entry before proceeding; with the jitter
bounded as in the source (`Math.floor(Math.random()*1000) ≤ 999`) every
per-stage delay is non-zero and bounded by 1699 ms. -/
theorem C4 (jitter : Nat → Nat) (brand : Nat) (err : String) (rid pid : Nat) (s : Store)
    (hj : ∀ i, jitter i ≤ 999) :
    (simulateBuild none jitter brand err rid pid s).2 =
      [.updRun rid "running", .insLog rid "info" "Build queued",
       .insLog rid "info" "Cloning repo...", .sleepE (700 + jitter 0),
       .insLog rid "info" "Installing dependencies...", .sleepE (700 + jitter 1),
       .insLog rid "info" "Building assets...", .sleepE (700 + jitter 2),
       .insLog rid "info" "Running tests...", .sleepE (700 + jitter 3),
       .insLog rid "info" "Packaging...", .sleepE (700 + jitter 4),
       .insLog rid "info" "Uploading...", .sleepE (700 + jitter 5),
       .insLog rid "info" "Activating services...", .sleepE (700 + jitter 6),
       .updRun rid "success", .insLog rid "info" (successMsg brand), .rpcInc pid true] ∧
    (∀ i, 0 < 700 + jitter i ∧ 700 + jitter i ≤ 1699) := by
  constructor
  · simp only [simulateBuild, runStages, steps, List.enum, List.enumFrom, rpcStep,
      andThen_ok, andThen_error, tryOp_oracle_none, sleepSim_store, sleepSim_events,
      clock_appendLog, clock_updateRun, clock_advanceClock, Nat.reduceAdd,
      List.nil_append, List.cons_append, List.append_assoc, List.singleton_append,
      String.reduceAppend]
  · intro i
    have := hj i
    omega

/-- Witness for `C4` at the all-zero jitter. -/
theorem C4_witness :
    (∀ i, (fun _ : Nat => 0) i ≤ 999) ∧
    ((simulateBuild none (fun _ => 0) 3 "boom" 1 7 sampleStore).2 =
      [.updRun 1 "running", .insLog 1 "info" "Build queued",
       .insLog 1 "info" "Cloning repo...", .sleepE (700 + (fun _ : Nat => 0) 0),
       .insLog 1 "info" "Installing dependencies...", .sleepE (700 + (fun _ : Nat => 0) 1),
       .insLog 1 "info" "Building assets...", .sleepE (700 + (fun _ : Nat => 0) 2),
       .insLog 1 "info" "Running tests...", .sleepE (700 + (fun _ : Nat => 0) 3),
       .insLog 1 "info" "Packaging...", .sleepE (700 + (fun _ : Nat => 0) 4),
       .insLog 1 "info" "Uploading...", .sleepE (700 + (fun _ : Nat => 0) 5),
       .insLog 1 "info" "Activating services...", .sleepE (700 + (fun _ : Nat => 0) 6),
       .updRun 1 "success", .insLog 1 "info" (successMsg 3), .rpcInc 7 true] ∧
     (∀ i, 0 < 700 + (fun _ : Nat => 0) i ∧ 700 + (fun _ : Nat => 0) i ≤ 1699)) :=
  ⟨fun _ => Nat.zero_le 999,
   C4 (fun _ => 0) 3 "boom" 1 7 sampleStore (fun _ => Nat.zero_le 999)⟩

/-- C5: a rejection of the best-effort visitor-counter rpc (operation 11,
swallowed by `.catch(() => {})` in the source) leaves the runs table and
the whole log table byte-identical to a successful-rpc execution — in
particular the run's terminal success status, `finished_at`, `build_time`
and the final success log entry are unchanged — and the driver still ends
with the `running`, `success` status writes (its catch path never runs);
only the project's visitor counter can differ. -/
theorem C5 (jitter : Nat → Nat) (brand : Nat) (err : String) (rid pid : Nat) (s : Store) :
    (simulateBuild (some 11) jitter brand err rid pid s).1.runs =
      (simulateBuild none jitter brand err rid pid s).1.runs ∧
    (simulateBuild (some 11) jitter brand err rid pid s).1.run_logs =
      (simulateBuild none jitter brand err rid pid s).1.run_logs ∧
    statusWrites (simulateBuild (some 11) jitter brand err rid pid s).2 =
      [(rid, "running"), (rid, "success")] := by
  refine ⟨?_, ?_, ?_⟩
  · simp only [simulateBuild, runStages, steps, List.enum, List.enumFrom, rpcStep,
      andThen_ok, andThen_error, tryOp_oracle_none, tryOp_oracle_hit, tryOp_oracle_miss,
      sleepSim_store, sleepSim_events, clock_appendLog, clock_updateRun, clock_advanceClock,
      Nat.reduceAdd, ne_eq, Nat.reduceEqDiff, not_false_eq_true,
      runs_appendLog, runs_incVisitors, runs_advanceClock,
      List.nil_append, List.cons_append, List.append_assoc, List.singleton_append]
  · simp only [simulateBuild, runStages, steps, List.enum, List.enumFrom, rpcStep,
      andThen_ok, andThen_error, tryOp_oracle_none, tryOp_oracle_hit, tryOp_oracle_miss,
      sleepSim_store, sleepSim_events, clock_appendLog, clock_updateRun, clock_advanceClock,
      Nat.reduceAdd, ne_eq, Nat.reduceEqDiff, not_false_eq_true,
      run_logs_appendLog, run_logs_incVisitors, run_logs_advanceClock, run_logs_updateRun,
      List.nil_append, List.cons_append, List.append_assoc, List.singleton_append]
  · conv_lhs =>
      arg 1
      simp only [simulateBuild, runStages, steps, List.enum, List.enumFrom, rpcStep,
        failHandler, andThen_ok, andThen_error,
        tryOp_oracle_none, tryOp_oracle_hit, tryOp_oracle_miss, sleepSim_store, sleepSim_events,
        clock_appendLog, clock_updateRun, clock_advanceClock,
        Nat.reduceAdd, ne_eq, Nat.reduceEqDiff, not_false_eq_true,
        List.nil_append, List.cons_append, List.append_assoc, List.singleton_append]
    rfl

/-! ### C7, C8, C9, C10 -/

/-- C7: an authenticated deploy whose effective payload has no name (the
empty string, the JS-falsy encoding of a missing `payload.name`) returns
the 400 validation error, leaves the store untouched — no project row
created or updated, no run created — and starts no driver. -/
theorem C7 (u : String) (b : DeployBody) (fault : Option Nat) (jitter : Nat → Nat)
    (brand : Nat) (err : String) (s : Store)
    (hname : (effPayload b).name = "") :
    deployHandler (some u) b s = (.badRequest, s, none) ∧
    deploy (some u) b fault jitter brand err s = (.badRequest, s) := by
  constructor
  · simp [deployHandler, hname]
  · simp [deploy, deployHandler, hname]

/-- Witness for `C7` with the name missing inside a nested payload. -/
theorem C7_witness :
    (effPayload ⟨some ⟨"", "r", "f", "g"⟩, ⟨"x", "", "", ""⟩⟩).name = "" ∧
    deployHandler (some "alice") ⟨some ⟨"", "r", "f", "g"⟩, ⟨"x", "", "", ""⟩⟩ sampleStore =
      (.badRequest, sampleStore, none) ∧
    deploy (some "alice") ⟨some ⟨"", "r", "f", "g"⟩, ⟨"x", "", "", ""⟩⟩ none (fun _ => 0) 3
      "boom" sampleStore = (.badRequest, sampleStore) :=
  ⟨rfl,
   (C7 "alice" ⟨some ⟨"", "r", "f", "g"⟩, ⟨"x", "", "", ""⟩⟩ none (fun _ => 0) 3 "boom"
     sampleStore rfl).1,
   (C7 "alice" ⟨some ⟨"", "r", "f", "g"⟩, ⟨"x", "", "", ""⟩⟩ none (fun _ => 0) 3 "boom"
     sampleStore rfl).2⟩

/-- C8: for GET /api/runs/:id with an authenticated caller, an unknown run
id yields 404, and a known run whose project's owner is not the caller
(including a missing project or a null owner) yields 403 — a response
constructor carrying no run record and no log entries. -/
theorem C8 (u : String) (rid : Nat) (s : Store) :
    (getRun s rid = none → getRunByIdHandler (some u) rid s = .notFound) ∧
    (∀ run, getRun s rid = some run →
      (findProjectById s run.project_id).bind Project.owner ≠ some u →
      getRunByIdHandler (some u) rid s = .forbidden) := by
  constructor
  · intro h
    simp [getRunByIdHandler, h]
  · intro run hrun hown
    simp [getRunByIdHandler, hrun, hown]

/-- Witness for `C8`: unknown run 99, and run 1 (project 7 owned by
"alice") requested by "bob". -/
theorem C8_witness :
    (getRun sampleStore 99 = none ∧
      getRunByIdHandler (some "alice") 99 sampleStore = .notFound) ∧
    (getRun sampleStore 1 = some ⟨1, 7, "queued", 2, 2, none, none⟩ ∧
      (findProjectById sampleStore 7).bind Project.owner ≠ some "bob" ∧
      getRunByIdHandler (some "bob") 1 sampleStore = .forbidden) :=
  ⟨⟨by decide, (C8 "alice" 99 sampleStore).1 (by decide)⟩,
   ⟨by decide, by decide,
    (C8 "bob" 1 sampleStore).2 ⟨1, 7, "queued", 2, 2, none, none⟩ (by decide) (by decide)⟩⟩

/-- The run list carried by a GET /api/runs response. -/
def runsRespBody : RunsResp → List Run
  | .notAuth => []
  | .ok l => l

/-- The project list carried by a GET /api/projects response. -/
def projectsRespBody : ProjectsResp → List Project
  | .notAuth => []
  | .ok l => l

/-- C9: for any authenticated caller, GET /api/runs returns every run in
the store — filtered only by the optional `project_id` query parameter,
with no restriction to runs of projects the caller owns — whereas
GET /api/projects returns exactly the projects whose owner is the
caller. -/
theorem C9 (u : String) (s : Store) :
    (∀ r, r ∈ runsRespBody (getRunsHandler (some u) none s) ↔ r ∈ s.runs) ∧
    (∀ pid r, r ∈ runsRespBody (getRunsHandler (some u) (some pid) s) ↔
      (r ∈ s.runs ∧ r.project_id = pid)) ∧
    (∀ p, p ∈ projectsRespBody (getProjectsHandler (some u) s) ↔
      (p ∈ s.projects ∧ p.owner = some u)) := by
  refine ⟨fun r => ?_, fun pid r => ?_, fun p => ?_⟩
  · simp [getRunsHandler, runsRespBody, mem_sortDescBy]
  · simp [getRunsHandler, runsRespBody, mem_sortDescBy, List.mem_filter]
  · simp [getProjectsHandler, projectsRespBody, mem_sortDescBy, List.mem_filter]

/-- C10: the deploy endpoint accepts its fields nested under `payload` or
as the top-level body with identical behaviour (`req.body.payload ||
req.body`), and the logs endpoint defaults an omitted level to "info" and
rejects an empty-string message exactly like a missing one (400, store
unchanged). -/
theorem C10 (user : Option String) (p t : DeployPayload) (s : Store) (fault : Option Nat)
    (jitter : Nat → Nat) (brand : Nat) (err : String) (rid : Nat) (lvl : Option String)
    (m : Option String) :
    deployHandler user ⟨some p, t⟩ s = deployHandler user ⟨none, p⟩ s ∧
    deploy user ⟨some p, t⟩ fault jitter brand err s =
      deploy user ⟨none, p⟩ fault jitter brand err s ∧
    postLogsHandler rid ⟨none, m⟩ s = postLogsHandler rid ⟨some "info", m⟩ s ∧
    postLogsHandler rid ⟨lvl, some ""⟩ s = (.badRequest, s) ∧
    postLogsHandler rid ⟨lvl, none⟩ s = (.badRequest, s) := by
  refine ⟨rfl, rfl, rfl, ?_, ?_⟩ <;> simp [postLogsHandler]

/-! ### C6 -/

@[simp] theorem projects_updateProjects (f : Project → Project) (s : Store) :
    (updateProjects f s).projects = s.projects.map f := rfl

@[simp] theorem nextId_updateProjects (f : Project → Project) (s : Store) :
    (updateProjects f s).nextId = s.nextId := rfl

@[simp] theorem mkRun_fst (pid : Nat) (s : Store) :
    (mkRun pid s).1 = ⟨s.nextId, pid, "queued", s.clock, s.clock, none, none⟩ := rfl

@[simp] theorem mkRun_snd_projects (pid : Nat) (s : Store) :
    (mkRun pid s).2.projects = s.projects := rfl

/-- The per-row effect of a deploy that found an existing project row `p`
by name: rows with `p`'s id get the mutable fields merged
(`payload.x || p.x`), and the owner backfilled only when the fetched row's
owner was absent; all other rows are untouched. -/
def deployUpdRow (u : String) (pl : DeployPayload) (p : Project) (q : Project) : Project :=
  if q.id = p.id then
    { q with repo := orElseStr pl.repo p.repo,
             framework := orElseStr pl.framework p.framework,
             region := orElseStr pl.region p.region,
             owner := if p.owner = none then some u else q.owner }
  else q

/-- C6: when a deploy's payload names an existing project (the "second
request" of the claim), the handler answers with the existing project's
id, the projects table is only rewritten row-wise — the found row's
mutable fields (repo, framework, region) are updated in place and no
duplicate row is inserted (the table length is unchanged) — and each
row's owner is either left exactly as it was or set from absent to the
caller, never cleared or reassigned. -/
theorem C6 (u : String) (pl : DeployPayload) (b : DeployBody) (s : Store) (p : Project)
    (hb : effPayload b = pl) (hn : ¬pl.name = "")
    (hfind : findProjectByName s pl.name = some p)
    (hid : ∀ q ∈ s.projects, q.id = p.id → q = p) :
    (deployHandler (some u) b s).1 = .ok s.nextId p.id "queued" ∧
    (deployHandler (some u) b s).2.1.projects = s.projects.map (deployUpdRow u pl p) ∧
    (deployHandler (some u) b s).2.1.projects.length = s.projects.length ∧
    (∀ q ∈ s.projects, (deployUpdRow u pl p q).owner = q.owner ∨
      (q.owner = none ∧ (deployUpdRow u pl p q).owner = some u)) := by
  subst hb
  have hproj : (deployHandler (some u) b s).2.1.projects =
      s.projects.map (deployUpdRow u (effPayload b) p) := by
    by_cases how : p.owner = none
    · simp only [deployHandler, if_neg hn, hfind, if_pos how, mkRun_snd_projects,
        projects_updateProjects, List.map_map]
      refine List.map_congr_left ?_
      intro q _
      by_cases hq : q.id = p.id <;>
        simp [deployUpdRow, Function.comp, hq, how]
    · simp only [deployHandler, if_neg hn, hfind, if_neg how, mkRun_snd_projects,
        projects_updateProjects]
      refine List.map_congr_left ?_
      intro q _
      by_cases hq : q.id = p.id <;>
        simp [deployUpdRow, hq, how]
  refine ⟨?_, hproj, ?_, ?_⟩
  · by_cases how : p.owner = none <;>
      simp [deployHandler, if_neg hn, hfind, how]
  · rw [hproj, List.length_map]
  · intro q hqmem
    by_cases hq : q.id = p.id
    · have hqp : q = p := hid q hqmem hq
      subst hqp
      by_cases how : q.owner = none
      · exact Or.inr ⟨how, by simp [deployUpdRow, how]⟩
      · exact Or.inl (by simp [deployUpdRow, how])
    · exact Or.inl (by simp [deployUpdRow, hq])

/-- Witness for `C6`: a second deploy for "alpha" on `sampleStore` by
caller "carol" with a payload that updates repo only. -/
theorem C6_witness :
    (effPayload ⟨some ⟨"alpha", "r2", "", ""⟩, ⟨"", "", "", ""⟩⟩ = ⟨"alpha", "r2", "", ""⟩ ∧
      ¬("alpha" = "") ∧
      findProjectByName sampleStore "alpha" =
        some ⟨7, "alpha", "r0", "f0", "eu", "alpha.dexpress.app", 0, some "alice", 0⟩ ∧
      (∀ q ∈ sampleStore.projects,
        q.id = (⟨7, "alpha", "r0", "f0", "eu", "alpha.dexpress.app", 0, some "alice", 0⟩ : Project).id →
        q = ⟨7, "alpha", "r0", "f0", "eu", "alpha.dexpress.app", 0, some "alice", 0⟩)) ∧
    ((deployHandler (some "carol") ⟨some ⟨"alpha", "r2", "", ""⟩, ⟨"", "", "", ""⟩⟩ sampleStore).1 =
        .ok sampleStore.nextId 7 "queued" ∧
      (deployHandler (some "carol") ⟨some ⟨"alpha", "r2", "", ""⟩, ⟨"", "", "", ""⟩⟩ sampleStore).2.1.projects =
        sampleStore.projects.map (deployUpdRow "carol" ⟨"alpha", "r2", "", ""⟩
          ⟨7, "alpha", "r0", "f0", "eu", "alpha.dexpress.app", 0, some "alice", 0⟩) ∧
      (deployHandler (some "carol") ⟨some ⟨"alpha", "r2", "", ""⟩, ⟨"", "", "", ""⟩⟩ sampleStore).2.1.projects.length =
        sampleStore.projects.length ∧
      (∀ q ∈ sampleStore.projects,
        (deployUpdRow "carol" ⟨"alpha", "r2", "", ""⟩
          ⟨7, "alpha", "r0", "f0", "eu", "alpha.dexpress.app", 0, some "alice", 0⟩ q).owner = q.owner ∨
        (q.owner = none ∧
          (deployUpdRow "carol" ⟨"alpha", "r2", "", ""⟩
            ⟨7, "alpha", "r0", "f0", "eu", "alpha.dexpress.app", 0, some "alice", 0⟩ q).owner =
            some "carol"))) :=
  ⟨⟨rfl, by decide, by decide, by decide⟩,
   C6 "carol" ⟨"alpha", "r2", "", ""⟩ ⟨some ⟨"alpha", "r2", "", ""⟩, ⟨"", "", "", ""⟩⟩
     sampleStore ⟨7, "alpha", "r0", "f0", "eu", "alpha.dexpress.app", 0, some "alice", 0⟩
     rfl (by decide) (by decide) (by decide)⟩

/-! ### C3 -/

@[simp] theorem getRun_updateRun_running (rid : Nat) (s : Store) :
    getRun (updateRun rid (fun r => { r with status := "running" }) s) rid =
      (getRun s rid).map (fun r => { r with status := "running" }) :=
  getRun_updateRun_self rid _ s (fun _ => rfl)

@[simp] theorem getRun_updateRun_failed (rid c : Nat) (s : Store) :
    getRun (updateRun rid (fun r => { r with status := "failed", finished_at := some c }) s) rid =
      (getRun s rid).map (fun r => { r with status := "failed", finished_at := some c }) :=
  getRun_updateRun_self rid _ s (fun _ => rfl)

/-- C3: if the driver's execution suffers an unhandled failure before the
run completes (awaited operation `k ≤ 9`: the initial status update, the
initial or a stage log insert, or the success update itself), then the run
ends `failed` with `finished_at` recorded and `build_time` still unset,
the log tail for the run consists of exactly the info entries written
before the fault (`driverInfoMsgs.take (k-1)`: nothing for k ≤ 1, "Build
queued" and the first `k-2` stage entries otherwise) followed by exactly
one error-level entry carrying the failure description — no further stage
is executed and nothing is retried. -/
theorem C3 (k : Nat) (hk : k ≤ 9) (jitter : Nat → Nat) (brand : Nat) (err : String)
    (rid pid : Nat) (s : Store) (r : Run)
    (hr : getRun s rid = some r) (hbt : r.build_time = none) :
    (∃ r', getRun (simulateBuild (some k) jitter brand err rid pid s).1 rid = some r' ∧
      r'.status = "failed" ∧ r'.finished_at.isSome = true ∧ r'.build_time = none) ∧
    (logsFor (simulateBuild (some k) jitter brand err rid pid s).1 rid).map
        (fun e => (e.level, e.message)) =
      (logsFor s rid).map (fun e => (e.level, e.message)) ++
        (driverInfoMsgs.take (k - 1)).map (fun m => ("info", m)) ++
        [("error", "Build failed: " ++ err)] := by
  interval_cases k <;>
  · constructor
    · simp only [simulateBuild, runStages, steps, List.enum, List.enumFrom, rpcStep, failHandler,
        andThen_ok, andThen_error, tryOp_oracle_none, tryOp_oracle_hit, tryOp_oracle_miss,
        sleepSim_store, sleepSim_events, clock_appendLog, clock_updateRun, clock_advanceClock,
        Nat.reduceAdd, ne_eq, Nat.reduceEqDiff, not_false_eq_true,
        List.nil_append, List.cons_append, List.append_assoc, List.singleton_append,
        getRun_appendLog, getRun_advanceClock, getRun_updateRun_running, getRun_updateRun_failed,
        hr, Option.map_some]
      exact ⟨_, rfl, rfl, rfl, hbt⟩
    · simp only [simulateBuild, runStages, steps, List.enum, List.enumFrom, rpcStep, failHandler,
        andThen_ok, andThen_error, tryOp_oracle_none, tryOp_oracle_hit, tryOp_oracle_miss,
        sleepSim_store, sleepSim_events, clock_appendLog, clock_updateRun, clock_advanceClock,
        Nat.reduceAdd, ne_eq, Nat.reduceEqDiff, not_false_eq_true,
        List.nil_append, List.cons_append, List.append_assoc, List.singleton_append,
        logsFor_appendLog_self, logsFor_advanceClock, logsFor_updateRun,
        List.map_append, logEntryOf_level, logEntryOf_message,
        driverInfoMsgs, List.take, List.map_cons, List.map_nil, String.reduceAppend]

/-- Witness for `C3` at `k = 3` (the second stage's log insert throws) on
`sampleStore`'s run 1. -/
theorem C3_witness :
    ((3 ≤ 9 ∧ getRun sampleStore 1 = some ⟨1, 7, "queued", 2, 2, none, none⟩) ∧
      (⟨1, 7, "queued", 2, 2, none, none⟩ : Run).build_time = none) ∧
    ((∃ r', getRun (simulateBuild (some 3) (fun _ => 0) 3 "boom" 1 7 sampleStore).1 1 = some r' ∧
        r'.status = "failed" ∧ r'.finished_at.isSome = true ∧ r'.build_time = none) ∧
      (logsFor (simulateBuild (some 3) (fun _ => 0) 3 "boom" 1 7 sampleStore).1 1).map
          (fun e => (e.level, e.message)) =
        (logsFor sampleStore 1).map (fun e => (e.level, e.message)) ++
          (driverInfoMsgs.take (3 - 1)).map (fun m => ("info", m)) ++
          [("error", "Build failed: " ++ "boom")]) :=
  ⟨⟨⟨by decide, by decide⟩, rfl⟩,
   C3 3 (by decide) (fun _ => 0) 3 "boom" 1 7 sampleStore ⟨1, 7, "queued", 2, 2, none, none⟩
     (by decide) rfl⟩

end Zignasa
